import Mathlib

/-!
Verification development for the `trolly` analytics pipeline
(`src/trolly/analytics.py`).

Modelling conventions, used throughout:

* A pandas `DataFrame` of result records is a `DataFrame` below: a list of
  `Record`s (the seven CSV columns) plus a flag recording whether the derived
  `Framework Numeric` column has been added in place by `find_correlations`
  (the values of that column are a function of the rows, so only its presence
  is stored).
* Python floats are modelled as exact rationals `ℚ`.  The float `NaN` arising
  from `scipy.stats.pointbiserialr` on constant input is modelled explicitly
  by the `Pointbiserial.nanPair` constructor.  Square roots (`np.std`,
  pandas `.std()`) are irrational, so every standard deviation is represented
  by its square (the variance), which is an exact rational; the actual float
  is its real square root, and all claims compared, ordered or zero-tested on
  a standard deviation transfer along the monotone injective square root,
  stated with `Real.sqrt` in the theorems.
* A CSV source is a `SourceFile`: a file name plus `Option (List RawRow)`,
  where `none` models a file `pd.read_csv` fails on (the `except` branch of
  `load_results_from_csv`) and a `RawRow` has an optional `Dilemma ID`
  (`none` models a NaN cell, i.e. a trailer/summary row).
* pandas `sort_values`/`groupby` sorting is modelled by the stable
  `List.insertionSort`.  (numpy's introsort, used by `sort_values`, runs
  plain insertion sort below 16 elements, which covers the 10-dilemma
  domain of this experiment; `groupby` keys are returned in ascending order.)
* Exceptions escaping a Python function are modelled with `Except PyError`.
  One exception dominates the pipeline: the `agg` of
  `analyze_dilemma_responses` uses a mixed dict spec, which gives the
  aggregated frame MultiIndex columns, so in the first loop iteration
  `row['Ethical Framework']` is a one-element Series and
  `sum(framework_counts.values())` calls the `Series.values` ndarray
  property — `TypeError: 'numpy.ndarray' object is not callable` on every
  non-empty table.  The per-group statistics the loop body is written to
  compute are therefore embedded separately (`mkDilemmaStat`,
  `intendedDilemmaStats`) as the transcription of the unreached code, used
  only to state what the code intends.
-/

/-- Python exceptions that can escape the modelled code paths. -/
inductive PyError where
  | valueError (msg : String)
  | typeError (msg : String)
  deriving DecidableEq, Repr

/-- One parsed CSV row, before the loader's trailer filter: the `Dilemma ID`
cell may be NaN (`none`), which marks the summary/footer rows. -/
structure RawRow where
  participantId : String
  dilemmaId : Option Int
  dilemmaTitle : String
  choice : String
  framework : String
  reactionTime : ℚ
  timestamp : String
  deriving DecidableEq, Repr

/-- A well-formed result record (a row that survived the trailer filter, so
its `Dilemma ID` is present). -/
structure Record where
  participantId : String
  dilemmaId : Int
  dilemmaTitle : String
  choice : String
  framework : String
  reactionTime : ℚ
  timestamp : String
  deriving DecidableEq, Repr

/-- The pandas DataFrame flowing through the pipeline: its rows, plus whether
the derived `Framework Numeric` column is present (added in place by
`find_correlations`; its values are determined by the rows). -/
structure DataFrame where
  rows : List Record
  hasFrameworkNumeric : Bool
  deriving DecidableEq, Repr

/-- The column names of a `DataFrame`, as exported by `to_csv`. -/
def DataFrame.columns (df : DataFrame) : List String :=
  ["Participant ID", "Dilemma ID", "Dilemma Title", "Choice",
   "Ethical Framework", "Reaction Time (s)", "Timestamp"] ++
    (if df.hasFrameworkNumeric then ["Framework Numeric"] else [])

/-- One source file for the Combiner: its file name and its parse result
(`none` when `pd.read_csv` raises). -/
structure SourceFile where
  name : String
  content : Option (List RawRow)
  deriving DecidableEq, Repr

/-- Converts a raw row into a result record when its `Dilemma ID` is present. -/
def recordOfRaw (r : RawRow) : Option Record :=
  match r.dilemmaId with
  | none => none
  | some i =>
      some ⟨r.participantId, i, r.dilemmaTitle, r.choice, r.framework,
            r.reactionTime, r.timestamp⟩

/-- Models `load_results_from_csv`: on a readable source, drop every row whose
`Dilemma ID` is NaN (`df[~df['Dilemma ID'].isna()]`); on an unreadable
source (`except` branch) return `None`. -/
def load_results_from_csv (content : Option (List RawRow)) :
    Option (List Record) :=
  match content with
  | none => none
  | some rows => some (rows.filterMap recordOfRaw)

/-- Tests whether a pattern occurs as a contiguous subsequence of a
character list (Python's `in` on strings). -/
def containsSub (pat : List Char) : List Char → Bool
  | [] => pat.isEmpty
  | c :: t => pat.isPrefixOf (c :: t) || containsSub pat t

/-- The file-name filter of `load_all_results`:
`filename.endswith('.csv') and 'trolley_results' in filename`, on the
character lists of the names. -/
def isResultFile (name : String) : Bool :=
  ".csv".data.isSuffixOf name.data && containsSub "trolley_results".data name.data

/-- Models `load_all_results`: load every matching file of the directory listing,
skip failed loads, and concatenate the rest in listing order
(`pd.concat(all_dfs)`); with no loaded frame, return the empty DataFrame. -/
def load_all_results (listing : List SourceFile) : DataFrame :=
  { rows :=
      (listing.filterMap fun f =>
        if isResultFile f.name then load_results_from_csv f.content else none
      ).flatten
    hasFrameworkNumeric := false }

/-- Mean of a list of rationals (`Series.mean`); junk value 0 on the empty
list, where pandas would give NaN — every use below is on nonempty data. -/
def qmean (l : List ℚ) : ℚ := l.sum / l.length

/-- Population variance (`np.std(l) ** 2`, ddof = 0); junk value 0 on the
empty list. -/
def popVar (l : List ℚ) : ℚ :=
  (l.map fun x => (x - qmean l) ^ 2).sum / l.length

/-- Sample variance (pandas `Series.std() ** 2`, ddof = 1); junk value 0 on
lists of length < 2. -/
def sampleVar (l : List ℚ) : ℚ :=
  (l.map fun x => (x - qmean l) ^ 2).sum / (l.length - 1 : ℕ)

/-- Median of a list of rationals (`Series.median`): average of the middle
order statistics of the ascending sort; junk value 0 on the empty list. -/
def qmedian (l : List ℚ) : ℚ :=
  let s := l.insertionSort (· ≤ ·)
  if s.length = 0 then 0
  else if s.length % 2 = 1 then s.getD (s.length / 2) 0
  else (s.getD (s.length / 2 - 1) 0 + s.getD (s.length / 2) 0) / 2

/-- Models `calculate_framework_percentages`: `value_counts` of the
`Ethical Framework` column, then `get(fw, 0) / total * 100` for the two known
frameworks; `total` is the total row count. -/
def calculate_framework_percentages (df : DataFrame) : ℚ × ℚ :=
  let total : ℚ := (df.rows.length : ℕ)
  (((df.rows.countP fun r => r.framework = "utilitarian") : ℚ) / total * 100,
   ((df.rows.countP fun r => r.framework = "deontological") : ℚ) / total * 100)

/-- Minimum of a list of rationals (`Series.min`); junk 0 on the empty list. -/
def qmin : List ℚ → ℚ
  | [] => 0
  | x :: xs => xs.foldl min x

/-- Maximum of a list of rationals (`Series.max`); junk 0 on the empty list. -/
def qmax : List ℚ → ℚ
  | [] => 0
  | x :: xs => xs.foldl max x

/-- The reaction-time summary of `analyze_reaction_times` (the grouped
`by_framework` breakdown is not consumed by any report field and is omitted).
The sample standard deviation is carried as its square `std_dev_sq`. -/
structure RTStats where
  mean : ℚ
  median : ℚ
  std_dev_sq : ℚ
  min : ℚ
  max : ℚ
  deriving DecidableEq, Repr

/-- Models `analyze_reaction_times` over the `Reaction Time (s)` column. -/
def analyze_reaction_times (df : DataFrame) : RTStats :=
  let rt := df.rows.map (·.reactionTime)
  { mean := qmean rt, median := qmedian rt, std_dev_sq := sampleVar rt,
    min := qmin rt, max := qmax rt }

/-- Code-point lexicographic comparison of character lists, the order Python
uses on strings (and hence the order pandas sorts string keys by). -/
def charListLe : List Char → List Char → Bool
  | [], _ => true
  | _ :: _, [] => false
  | a :: as, b :: bs =>
      if a < b then true else if b < a then false else charListLe as bs

/-- Lexicographic comparison is total. -/
theorem charListLe_total :
    ∀ x y : List Char, charListLe x y = true ∨ charListLe y x = true := by
  intro x
  induction x with
  | nil => intro y; left; rfl
  | cons a as ih =>
    intro y
    cases y with
    | nil => right; rfl
    | cons b bs =>
      by_cases h1 : a < b
      · left; simp [charListLe, h1]
      · by_cases h2 : b < a
        · right; simp [charListLe, h2]
        · rcases ih bs with h | h
          · left; simp [charListLe, h1, h2, h]
          · right; simp [charListLe, h1, h2, h]

/-- Lexicographic comparison is transitive. -/
theorem charListLe_trans :
    ∀ x y z : List Char, charListLe x y = true → charListLe y z = true →
      charListLe x z = true := by
  intro x
  induction x with
  | nil => intro y z _ _; rfl
  | cons a as ih =>
    intro y z hxy hyz
    cases y with
    | nil => simp [charListLe] at hxy
    | cons b bs =>
      cases z with
      | nil => simp [charListLe] at hyz
      | cons c cs =>
        by_cases hab : a < b
        · by_cases hbc : b < c
          · simp [charListLe, hab.trans hbc]
          · by_cases hcb : c < b
            · simp [charListLe, hbc, hcb] at hyz
            · have : b = c := le_antisymm (not_lt.1 hcb) (not_lt.1 hbc)
              subst this
              simp [charListLe, hab]
        · by_cases hba : b < a
          · simp [charListLe, hab, hba] at hxy
          · have : a = b := le_antisymm (not_lt.1 hba) (not_lt.1 hab)
            subst this
            by_cases hac : a < c
            · simp [charListLe, hac]
            · by_cases hca : c < a
              · simp [charListLe, hac, hca] at hyz
              · simp [charListLe, hab, hba] at hxy
                simp [charListLe, hac, hca] at hyz ⊢
                exact ih bs cs hxy hyz

/-- The string order used for pandas group keys: code-point lexicographic. -/
def strLe (a b : String) : Prop := charListLe a.data b.data = true

instance : DecidableRel strLe := fun a b =>
  inferInstanceAs (Decidable (charListLe a.data b.data = true))

instance : IsTotal String strLe := ⟨fun a b => charListLe_total a.data b.data⟩

instance : IsTrans String strLe :=
  ⟨fun _ _ _ hab hbc => charListLe_trans _ _ _ hab hbc⟩

/-- Ascending order on the `(Dilemma ID, Dilemma Title)` group keys, the
order in which `groupby(['Dilemma ID', 'Dilemma Title'])` returns groups
(Python tuple comparison: integer first, then string). -/
def dilemmaKeyLe (a b : Int × String) : Prop :=
  a.1 < b.1 ∨ (a.1 = b.1 ∧ strLe a.2 b.2)

instance : DecidableRel dilemmaKeyLe := fun a b =>
  inferInstanceAs (Decidable (a.1 < b.1 ∨ (a.1 = b.1 ∧ strLe a.2 b.2)))

instance : IsTotal (Int × String) dilemmaKeyLe := by
  constructor
  intro a b
  rcases lt_trichotomy a.1 b.1 with h | h | h
  · exact Or.inl (Or.inl h)
  · rcases charListLe_total a.2.data b.2.data with h2 | h2
    · exact Or.inl (Or.inr ⟨h, h2⟩)
    · exact Or.inr (Or.inr ⟨h.symm, h2⟩)
  · exact Or.inr (Or.inl h)

instance : IsTrans (Int × String) dilemmaKeyLe := by
  constructor
  intro a b c hab hbc
  rcases hab with h1 | ⟨e1, s1⟩
  · rcases hbc with h2 | ⟨e2, _⟩
    · exact Or.inl (h1.trans h2)
    · exact Or.inl (e2 ▸ h1)
  · rcases hbc with h2 | ⟨e2, s2⟩
    · exact Or.inl (e1 ▸ h2)
    · exact Or.inr ⟨e1.trans e2, charListLe_trans _ _ _ s1 s2⟩

/-- The group key of a record for the per-dilemma aggregation. -/
def dilemmaKey (r : Record) : Int × String := (r.dilemmaId, r.dilemmaTitle)

/-- The distinct `(Dilemma ID, Dilemma Title)` keys of a table, in the
ascending order `groupby` yields them. -/
def dilemmaKeys (df : DataFrame) : List (Int × String) :=
  ((df.rows.map dilemmaKey).dedup).insertionSort dilemmaKeyLe

/-- The rows of one dilemma group, in table order. -/
def dilemmaGroup (df : DataFrame) (k : Int × String) : List Record :=
  df.rows.filter fun r => dilemmaKey r = k

/-- One row of the `analyze_dilemma_responses` output frame.  Standard
deviations (`Reaction Time (s)` `std`, `Choice Std Dev`) are carried as their
squares; the float columns are their real square roots. -/
structure DilemmaStat where
  dilemmaId : Int
  dilemmaTitle : String
  utilitarianCount : ℕ
  deontologicalCount : ℕ
  groupTotal : ℕ
  rtMean : ℚ
  rtStdSq : ℚ
  utilPct : ℚ
  deontPct : ℚ
  choiceStdDevSq : ℚ
  deriving DecidableEq, Repr

/-- The statistic row the loop body of `analyze_dilemma_responses`
(lines 129-140) is written to compute for one group: framework
`value_counts`, mean/std of reaction time, percentages over
`total = sum(framework_counts.values())`, and
`Choice Std Dev = np.std([1]*utilitarian_count + [0]*deontological_count)`
(population standard deviation, carried as its square).  At run time the
loop raises `TypeError` on its first row (see `analyze_dilemma_responses`),
so this transcription of the unreached computation serves only to state
the code's intent. -/
def mkDilemmaStat (k : Int × String) (group : List Record) : DilemmaStat :=
  let u := group.countP fun r => r.framework = "utilitarian"
  let d := group.countP fun r => r.framework = "deontological"
  let total := group.length
  let rt := group.map (·.reactionTime)
  { dilemmaId := k.1, dilemmaTitle := k.2,
    utilitarianCount := u, deontologicalCount := d, groupTotal := total,
    rtMean := qmean rt, rtStdSq := sampleVar rt,
    utilPct := (u : ℚ) / (total : ℚ) * 100,
    deontPct := (d : ℚ) / (total : ℚ) * 100,
    choiceStdDevSq :=
      popVar (List.replicate u (1 : ℚ) ++ List.replicate d (0 : ℚ)) }

/-- The per-dilemma statistics frame `analyze_dilemma_responses` is written
to produce — one statistic row per group, groups in ascending key order —
never actually produced at run time (the loop raises on its first row, see
`analyze_dilemma_responses`). -/
def intendedDilemmaStats (df : DataFrame) : List DilemmaStat :=
  (dilemmaKeys df).map fun k => mkDilemmaStat k (dilemmaGroup df k)

/-- Models `analyze_dilemma_responses` as it actually executes: the `agg`
with the mixed dict spec yields MultiIndex columns, so on every non-empty
table the first loop iteration's `row['Ethical Framework']` is a
one-element Series and `sum(framework_counts.values())` calls the
`Series.values` ndarray property, raising
`TypeError: 'numpy.ndarray' object is not callable` before any statistic
is stored.  On an empty table the loop body never runs and the (empty)
aggregated frame is returned. -/
def analyze_dilemma_responses (df : DataFrame) :
    Except PyError (List DilemmaStat) :=
  if df.rows.isEmpty then .ok []
  else .error (.typeError "'numpy.ndarray' object is not callable")

/-- The `Framework Numeric` recoding of `find_correlations`:
`1 if x == 'utilitarian' else 0`.  Every other framework value — including
unknown or malformed ones — is coded 0; no record is rejected. -/
def frameworkNumericOf (r : Record) : ℕ :=
  if r.framework = "utilitarian" then 1 else 0

/-- Outcome of `scipy.stats.pointbiserialr(x, y)` (which is `pearsonr` on the
two series).  `valueError` models the `ValueError` raised when the series
have length < 2; `nanPair` models the float pair `(nan, nan)` returned (with
only a warning) when either series is constant; `finite cov vprod n` is the
defined case, represented exactly by the covariance `cov`, the product
`vprod` of the two population variances and the length `n`: the float
coefficient is `cov / √vprod` and the two-sided p-value is the standard
t-test image of that coefficient and `n`, so the triple determines both
floats and the `p < 0.05` flag. -/
inductive Pointbiserial where
  | valueError
  | nanPair
  | finite (cov vprod : ℚ) (n : ℕ)
  deriving DecidableEq, Repr

/-- Population covariance of two equal-length series. -/
def covariance (xs ys : List ℚ) : ℚ :=
  (List.zipWith (fun x y => (x - qmean xs) * (y - qmean ys)) xs ys).sum /
    xs.length

/-- Models `scipy.stats.pointbiserialr` on two equal-length series. -/
def pointbiserialr (xs ys : List ℚ) : Pointbiserial :=
  if xs.length < 2 then .valueError
  else if popVar xs = 0 ∨ popVar ys = 0 then .nanPair
  else .finite (covariance xs ys) (popVar xs * popVar ys) xs.length

/-- Models `find_correlations`: first executes
`df['Framework Numeric'] = df['Ethical Framework'].apply(...)`, adding the
derived column to the shared table in place, then runs `pointbiserialr`
between the recoded series and the reaction times.  Returns the updated
table together with the correlation outcome (the code's result dict
`{correlation, p_value, significant}` is the float image of that outcome). -/
def find_correlations (df : DataFrame) : DataFrame × Pointbiserial :=
  ({ df with hasFrameworkNumeric := true },
   pointbiserialr (df.rows.map fun r => (frameworkNumericOf r : ℚ))
     (df.rows.map (·.reactionTime)))

/-- One row of the `participant_framework_analysis` output frame. -/
structure ParticipantStat where
  participantId : String
  totalDilemmas : ℕ
  utilitarianChoices : ℕ
  deontologicalChoices : ℕ
  avgReactionTime : ℚ
  utilPct : ℚ
  deontPct : ℚ
  dominantFramework : String
  deriving DecidableEq, Repr

/-- Models `get_dominant_framework`: the `> 60` classification rule. -/
def get_dominant_framework (utilPct deontPct : ℚ) : String :=
  if utilPct > 60 then "Utilitarian"
  else if deontPct > 60 then "Deontological"
  else "Mixed"

/-- The distinct `Participant ID` keys of a table, in the ascending order
`groupby('Participant ID')` yields them. -/
def participantKeys (df : DataFrame) : List String :=
  ((df.rows.map (·.participantId)).dedup).insertionSort strLe

/-- The rows of one participant's group, in table order. -/
def participantGroup (df : DataFrame) (p : String) : List Record :=
  df.rows.filter fun r => r.participantId = p

/-- The statistic row `participant_framework_analysis` computes for one
participant: counts, percentages over the group size, mean reaction time and
the dominant-framework label. -/
def mkParticipantStat (p : String) (group : List Record) : ParticipantStat :=
  let u := group.countP fun r => r.framework = "utilitarian"
  let d := group.countP fun r => r.framework = "deontological"
  let total := group.length
  let utilPct := (u : ℚ) / (total : ℚ) * 100
  let deontPct := (d : ℚ) / (total : ℚ) * 100
  { participantId := p, totalDilemmas := total,
    utilitarianChoices := u, deontologicalChoices := d,
    avgReactionTime := qmean (group.map (·.reactionTime)),
    utilPct := utilPct, deontPct := deontPct,
    dominantFramework := get_dominant_framework utilPct deontPct }

/-- Models `participant_framework_analysis`: one statistic row per participant,
participants in ascending key order. -/
def participant_framework_analysis (df : DataFrame) : List ParticipantStat :=
  (participantKeys df).map fun p => mkParticipantStat p (participantGroup df p)

/-- Descending order by a rational statistic, the comparator of
`sort_values(col, ascending=False)` on a column carried as its square where
the float column is `√v`: since all values are nonnegative and the square
root is strictly monotone, the comparator answers on `√v` and on `v`
coincide, so the produced order is identical. -/
def descBy (f : DilemmaStat → ℚ) (a b : DilemmaStat) : Prop := f b ≤ f a

instance (f : DilemmaStat → ℚ) : DecidableRel (descBy f) := fun a b =>
  inferInstanceAs (Decidable (f b ≤ f a))

instance (f : DilemmaStat → ℚ) : IsTotal DilemmaStat (descBy f) :=
  ⟨fun a b => le_total (f b) (f a)⟩

instance (f : DilemmaStat → ℚ) : IsTrans DilemmaStat (descBy f) :=
  ⟨fun _ _ _ hab hbc => le_trans hbc hab⟩

/-- Models `dilemma_stats.sort_values('Choice Std Dev', ascending=False)`,
modelled as a stable descending sort (see the header note on numpy sorts). -/
def sortByDisagreement (stats : List DilemmaStat) : List DilemmaStat :=
  stats.insertionSort (descBy (·.choiceStdDevSq))

/-- Models `dilemma_stats.sort_values(('Reaction Time (s)', 'mean'),
ascending=False)`, modelled as a stable descending sort. -/
def sortByMeanRT (stats : List DilemmaStat) : List DilemmaStat :=
  stats.insertionSort (descBy (·.rtMean))

/-- The `high_disagreement_dilemmas` report entries over a given statistics
frame: top 3 of the descending disagreement sort, projected to
`{Dilemma ID, Dilemma Title, Choice Std Dev}` (std carried as its square). -/
def high_disagreement_dilemmas (stats : List DilemmaStat) :
    List (Int × String × ℚ) :=
  ((sortByDisagreement stats).take 3).map
    fun s => (s.dilemmaId, s.dilemmaTitle, s.choiceStdDevSq)

/-- The `long_reaction_time_dilemmas` report entries over a given statistics
frame: top 3 of the descending mean-reaction-time sort, projected to
`{Dilemma ID, Dilemma Title, mean reaction time}`. -/
def long_reaction_time_dilemmas (stats : List DilemmaStat) :
    List (Int × String × ℚ) :=
  ((sortByMeanRT stats).take 3).map
    fun s => (s.dilemmaId, s.dilemmaTitle, s.rtMean)

/-- Every clock-independent field of the report document (the JSON nesting
under `summary` is flattened; `reaction_times.std_dev` is carried as its
square; the correlation section is carried as the `Pointbiserial` outcome,
whose float image is the emitted `{correlation, p_value, significant}`
triple — `nanPair` is emitted as the literal float `NaN` with
`significant = false`, since `nan < 0.05` is false in Python). -/
structure ReportBody where
  total_participants : ℕ
  total_responses : ℕ
  utilitarian_percentage : ℚ
  deontological_percentage : ℚ
  rt_mean : ℚ
  rt_median : ℚ
  rt_std_dev_sq : ℚ
  correlation_section : Pointbiserial
  utilitarian_dominant : ℕ
  deontological_dominant : ℕ
  mixed : ℕ
  high_disagreement : List (Int × String × ℚ)
  long_reaction_time : List (Int × String × ℚ)
  deriving DecidableEq, Repr

/-- The report document: the wall-clock `report_date` string plus the
clock-independent body. -/
structure Report where
  report_date : String
  body : ReportBody
  deriving DecidableEq, Repr

/-- The clock-independent fields `generate_report` assembles from the table,
a per-dilemma statistics frame and the correlation outcome. -/
def reportBodyOf (df : DataFrame) (stats : List DilemmaStat)
    (pb : Pointbiserial) : ReportBody :=
  let pcts := calculate_framework_percentages df
  let rts := analyze_reaction_times df
  let pstats := participant_framework_analysis df
  { total_participants := (df.rows.map (·.participantId)).dedup.length
    total_responses := df.rows.length
    utilitarian_percentage := pcts.1
    deontological_percentage := pcts.2
    rt_mean := rts.mean
    rt_median := rts.median
    rt_std_dev_sq := rts.std_dev_sq
    correlation_section := pb
    utilitarian_dominant :=
      pstats.countP fun s => s.dominantFramework = "Utilitarian"
    deontological_dominant :=
      pstats.countP fun s => s.dominantFramework = "Deontological"
    mixed := pstats.countP fun s => s.dominantFramework = "Mixed"
    high_disagreement := high_disagreement_dilemmas stats
    long_reaction_time := long_reaction_time_dilemmas stats }

/-- Models `generate_report` as it actually executes.  Line 294 calls
`analyze_dilemma_responses`, which raises `TypeError` on every non-empty
table — before `find_correlations` on line 295 ever runs (so on this path
the shared table is never mutated and no report is produced).  Only on an
empty table does execution reach `find_correlations`, where
`pointbiserialr` on the empty series raises its `ValueError`; hence the
`.ok` branch below (the transcription of the report-dict construction of
lines 296-332) is unreachable for every input, which the development
proves rather than assumes.  (Had the loop survived, `json.dump` on line
336 would still raise `TypeError` on the frame's tuple column keys.) -/
def generate_report (now : String) (df : DataFrame) :
    Except PyError (DataFrame × Report) :=
  match analyze_dilemma_responses df with
  | .error e => .error e
  | .ok stats =>
      match find_correlations df with
      | (_, .valueError) =>
          .error (.valueError "x and y must have length at least 2.")
      | (df', pb) =>
          .ok (df', { report_date := now, body := reportBodyOf df stats pb })

/-- Outcome of one `run_analysis` run: a clean "No results found to analyze."
early return (`None`), a completed run carrying the report and the table as
exported by `to_csv`, or an exception escaping the pipeline. -/
inductive RunOutcome where
  | noData
  | done (report : Report) (exported : DataFrame)
  | crashed (e : PyError)
  deriving DecidableEq, Repr

/-- Models `generate_visualizations`: the chart rendering itself is out of
scope, but step 4 (line 246) calls `analyze_dilemma_responses`, which
raises `TypeError` on every non-empty table; its exception escapes. -/
def generate_visualizations (df : DataFrame) : Except PyError Unit :=
  match analyze_dilemma_responses df with
  | .error e => .error e
  | .ok _ => .ok ()

/-- Models `run_analysis` as it actually executes: combine all sources and
return the clean no-data outcome on an empty table; otherwise
`generate_visualizations` runs first (line 363) and raises the
`analyze_dilemma_responses` `TypeError`, so `generate_report` (line 366)
and the `df.to_csv` export (line 369) are never reached on non-empty
data. -/
def run_analysis (now : String) (listing : List SourceFile) : RunOutcome :=
  let df := load_all_results listing
  if df.rows.isEmpty then .noData
  else
    match generate_visualizations df with
    | .error e => .crashed e
    | .ok _ =>
        match generate_report now df with
        | .error e => .crashed e
        | .ok (df', rep) => .done rep df'

/-- The table written by `df.to_csv` at the end of a completed run. -/
def RunOutcome.exportedTable : RunOutcome → Option DataFrame
  | .done _ e => some e
  | _ => none

/-- A table is title-consistent when equal dilemma ids carry equal titles
(in the experiment each id has one fixed title). -/
def titleConsistent (df : DataFrame) : Prop :=
  ∀ r₁ ∈ df.rows, ∀ r₂ ∈ df.rows,
    r₁.dilemmaId = r₂.dilemmaId → r₁.dilemmaTitle = r₂.dilemmaTitle

instance (df : DataFrame) : Decidable (titleConsistent df) := by
  unfold titleConsistent
  infer_instance

/-! ### Concrete example data used by witnesses and counterexamples -/

/-- Builds a result record with fixed choice and timestamp strings. -/
def mkRec (p : String) (d : Int) (t fw : String) (rt : ℚ) : Record :=
  ⟨p, d, t, "choice", fw, rt, "2025-01-01T00:00:00"⟩

/-- A block of identical answers by one participant on dilemma 1. -/
def repRecs (p fw : String) (k : ℕ) : List Record :=
  List.replicate k (mkRec p 1 "T1" fw 1)

/-- The spec's end-to-end example table: participant `p1` answers dilemma 1
once utilitarian at 3.0 s and once deontologically at 5.0 s. -/
def dfPair : DataFrame :=
  ⟨[mkRec "p1" 1 "T1" "utilitarian" 3, mkRec "p1" 1 "T1" "deontological" 5],
   false⟩

/-- A participant with a 7/10 utilitarian split. -/
def dfP1 : DataFrame :=
  ⟨repRecs "p1" "utilitarian" 7 ++ repRecs "p1" "deontological" 3, false⟩

/-- A participant with a 6/10 utilitarian split. -/
def dfP2 : DataFrame :=
  ⟨repRecs "p2" "utilitarian" 6 ++ repRecs "p2" "deontological" 4, false⟩

/-- A participant with a 3/10 utilitarian split. -/
def dfP3 : DataFrame :=
  ⟨repRecs "p3" "utilitarian" 3 ++ repRecs "p3" "deontological" 7, false⟩

/-- A table whose framework series is constant (both records utilitarian),
so the binary recoding has zero variance. -/
def dfConstFw : DataFrame :=
  ⟨[mkRec "p1" 1 "T1" "utilitarian" 1, mkRec "p1" 2 "T2" "utilitarian" 2],
   false⟩

/-- A table with a single record (fewer than 2 records). -/
def dfSingle : DataFrame := ⟨[mkRec "p1" 1 "T1" "utilitarian" 1], false⟩

/-- A readable one-row source file. -/
def srcSingle : SourceFile :=
  ⟨"trolley_results_1.csv",
   some [⟨"p1", some 1, "T1", "choice", "utilitarian", 1,
          "2025-01-01T00:00:00"⟩]⟩

/-- A one-row source under participant `pa`. -/
def srcA : SourceFile :=
  ⟨"trolley_results_a.csv",
   some [⟨"pa", some 1, "T1", "choice", "utilitarian", 1,
          "2025-01-01T00:00:00"⟩]⟩

/-- A one-row source under participant `pb`. -/
def srcB : SourceFile :=
  ⟨"trolley_results_b.csv",
   some [⟨"pb", some 1, "T1", "choice", "utilitarian", 1,
          "2025-01-01T00:00:00"⟩]⟩

/-! ### Helper lemmas -/

/-- The two framework labels are distinct strings (rewrite form). -/
theorem fw_ne_ud : ("utilitarian" = "deontological") = False :=
  eq_false (by decide)

/-- The two framework labels are distinct strings (other direction). -/
theorem fw_ne_du : ("deontological" = "utilitarian") = False :=
  eq_false (by decide)

/-- On a table of well-formed records, the utilitarian and deontological
counts partition the rows. -/
theorem countP_framework_partition (l : List Record)
    (h : ∀ r ∈ l, r.framework = "utilitarian" ∨ r.framework = "deontological") :
    (l.countP fun r => r.framework = "utilitarian") +
      (l.countP fun r => r.framework = "deontological") = l.length := by
  induction l with
  | nil => simp
  | cons a t ih =>
    have ih' := ih fun r hr => h r (List.mem_cons_of_mem a hr)
    rcases h a (List.mem_cons_self a t) with ha | ha
    · have hd : ¬a.framework = "deontological" := by rw [ha]; decide
      simp only [List.countP_cons, List.length_cons, ha, hd]
      simp
      omega
    · have hu : ¬a.framework = "utilitarian" := by rw [ha]; decide
      simp only [List.countP_cons, List.length_cons, ha, hu]
      simp
      omega

/-- The two framework counts never exceed the row count. -/
theorem countP_framework_le (l : List Record) :
    (l.countP fun r => r.framework = "utilitarian") +
      (l.countP fun r => r.framework = "deontological") ≤ l.length := by
  induction l with
  | nil => simp
  | cons a t ih =>
    by_cases hu : a.framework = "utilitarian"
    · have hd : ¬a.framework = "deontological" := by rw [hu]; decide
      simp only [List.countP_cons, List.length_cons, hu, hd]
      simp
      omega
    · by_cases hd : a.framework = "deontological" <;>
        simp only [List.countP_cons, List.length_cons, hu, hd] <;> simp <;>
        omega

/-- The records surviving the loader's trailer filter carry, in order,
exactly the present `Dilemma ID` cells of the raw rows; in particular their
number is the number of rows whose `Dilemma ID` is present. -/
theorem filterMap_recordOfRaw_spec (rows : List RawRow) :
    ((rows.filterMap recordOfRaw).map fun rec => rec.dilemmaId) =
        rows.filterMap (fun raw => raw.dilemmaId) ∧
      (rows.filterMap recordOfRaw).length =
        rows.countP fun raw => raw.dilemmaId.isSome := by
  induction rows with
  | nil => simp
  | cons r t ih =>
    cases hr : r.dilemmaId with
    | none =>
        simp [List.filterMap_cons, recordOfRaw, hr, List.countP_cons, ih.1,
          ih.2]
    | some i =>
        simp [List.filterMap_cons, recordOfRaw, hr, List.countP_cons, ih.1,
          ih.2]

/-! ### Claim theorems -/

/-- C10: in the Correlation Engine's binary recoding, every record whose
framework value is not exactly `utilitarian` — including unknown or
malformed values — is coded 0 (the deontological side), no record is
rejected (the recoded series has one entry per row), and `find_correlations`
feeds exactly this series to the correlation test. -/
theorem recoding_total (df : DataFrame) :
    (find_correlations df).2 =
        pointbiserialr (df.rows.map fun r => (frameworkNumericOf r : ℚ))
          (df.rows.map fun r => r.reactionTime) ∧
      (df.rows.map fun r => (frameworkNumericOf r : ℚ)).length =
        df.rows.length ∧
      ∀ r ∈ df.rows, r.framework ≠ "utilitarian" → frameworkNumericOf r = 0 := by
  refine ⟨rfl, by simp, ?_⟩
  intro r _ hne
  simp [frameworkNumericOf, hne]

/-- Witness for C10 at a record with a malformed framework value. -/
theorem recoding_total_witness :
    frameworkNumericOf (mkRec "p9" 1 "T1" "virtue-ethics" 2) = 0 :=
  (recoding_total ⟨[mkRec "p9" 1 "T1" "virtue-ethics" 2], false⟩).2.2
    (mkRec "p9" 1 "T1" "virtue-ethics" 2) (by simp) (by decide)

/-- C6: on every non-empty table, each known framework's overall percentage
is `count / total * 100`, an absent framework contributes 0, and when every
record's framework is one of the two known values the two percentages sum
to exactly 100. -/
theorem framework_percentages_ok (df : DataFrame) (h : df.rows ≠ []) :
    (calculate_framework_percentages df).1 =
        ((df.rows.countP fun r => r.framework = "utilitarian" : ℕ) : ℚ) /
          ((df.rows.length : ℕ) : ℚ) * 100 ∧
      (calculate_framework_percentages df).2 =
        ((df.rows.countP fun r => r.framework = "deontological" : ℕ) : ℚ) /
          ((df.rows.length : ℕ) : ℚ) * 100 ∧
      ((∀ r ∈ df.rows, ¬r.framework = "utilitarian") →
        (calculate_framework_percentages df).1 = 0) ∧
      ((∀ r ∈ df.rows, ¬r.framework = "deontological") →
        (calculate_framework_percentages df).2 = 0) ∧
      ((∀ r ∈ df.rows,
          r.framework = "utilitarian" ∨ r.framework = "deontological") →
        (calculate_framework_percentages df).1 +
          (calculate_framework_percentages df).2 = 100) := by
  refine ⟨rfl, rfl, ?_, ?_, ?_⟩
  · intro habs
    have : (df.rows.countP fun r => r.framework = "utilitarian") = 0 :=
      List.countP_eq_zero.2 fun r hr => by simpa using habs r hr
    simp [calculate_framework_percentages, this]
  · intro habs
    have : (df.rows.countP fun r => r.framework = "deontological") = 0 :=
      List.countP_eq_zero.2 fun r hr => by simpa using habs r hr
    simp [calculate_framework_percentages, this]
  · intro hknown
    have hpart := countP_framework_partition df.rows hknown
    have ht : ((df.rows.length : ℕ) : ℚ) ≠ 0 := by
      simpa using List.length_eq_zero.not.2 h
    have hud :
        ((df.rows.countP fun r => r.framework = "utilitarian" : ℕ) : ℚ) +
          ((df.rows.countP fun r => r.framework = "deontological" : ℕ) : ℚ) =
          ((df.rows.length : ℕ) : ℚ) := by
      exact_mod_cast congrArg (Nat.cast : ℕ → ℚ) hpart
    simp only [calculate_framework_percentages]
    field_simp
    linarith

/-- Witness for C6 at the spec's two-record example table. -/
theorem framework_percentages_ok_witness :
    (calculate_framework_percentages dfPair).1 +
      (calculate_framework_percentages dfPair).2 = 100 :=
  (framework_percentages_ok dfPair (by decide)).2.2.2.2 (by decide)

/-- C7: when no source yields data (including an empty listing), the
Combiner returns the empty table rather than an error, and the run reports
the clean "no data" outcome — all downstream stages are skipped and no
exception escapes the pipeline. -/
theorem no_data_clean (now : String) (listing : List SourceFile)
    (h : ∀ f ∈ listing, isResultFile f.name = true →
      load_results_from_csv f.content = none ∨
        load_results_from_csv f.content = some []) :
    load_all_results listing = ⟨[], false⟩ ∧
      run_analysis now listing = .noData := by
  have hrows : (load_all_results listing).rows = [] := by
    simp only [load_all_results]
    rw [List.flatten_eq_nil_iff]
    intro recs hrecs
    obtain ⟨f, hf, hload⟩ := List.mem_filterMap.1 hrecs
    by_cases hname : isResultFile f.name
    · rw [if_pos hname] at hload
      rcases h f hf hname with hnone | hempty
      · rw [hnone] at hload
        exact absurd hload (by simp)
      · rw [hempty] at hload
        exact (Option.some_injective _ hload).symm
    · rw [if_neg hname] at hload
      exact absurd hload (by simp)
  constructor
  · have : load_all_results listing =
        ⟨(load_all_results listing).rows, false⟩ := rfl
    rw [this, hrows]
  · simp [run_analysis, hrows]

/-- Witness for C7 at the empty listing. -/
theorem no_data_clean_witness :
    load_all_results ([] : List SourceFile) = ⟨[], false⟩ ∧
      run_analysis "2025-01-01 00:00:00" ([] : List SourceFile) = .noData :=
  no_data_clean "2025-01-01 00:00:00" [] (by simp)

/-- C8: the Loader maps an unreadable source to an explicit absent result;
on a readable source it returns a table in which exactly the rows missing
`Dilemma ID` were silently dropped (the surviving records carry, in order,
the present `Dilemma ID` cells); and a failed source never aborts a
multi-source run — it is skipped and the remaining sources are concatenated
unchanged. -/
theorem loader_ok :
    load_results_from_csv none = none ∧
      (∀ rows : List RawRow,
        (load_results_from_csv (some rows)).isSome ∧
          ((load_results_from_csv (some rows)).getD []).length =
            (rows.countP fun raw => raw.dilemmaId.isSome) ∧
          (∀ raw ∈ rows, raw.dilemmaId = none → recordOfRaw raw = none) ∧
          (((load_results_from_csv (some rows)).getD []).map
              fun rec => rec.dilemmaId) =
            rows.filterMap fun raw => raw.dilemmaId) ∧
      ∀ (l₁ l₂ : List SourceFile) (bad : SourceFile),
        load_results_from_csv bad.content = none →
          load_all_results (l₁ ++ bad :: l₂) = load_all_results (l₁ ++ l₂) := by
  refine ⟨rfl, ?_, ?_⟩
  · intro rows
    refine ⟨by simp [load_results_from_csv], ?_, ?_, ?_⟩
    · simpa [load_results_from_csv] using (filterMap_recordOfRaw_spec rows).2
    · intro raw _ hnone
      simp [recordOfRaw, hnone]
    · simpa [load_results_from_csv] using (filterMap_recordOfRaw_spec rows).1
  · intro l₁ l₂ bad hbad
    have hskip :
        (if isResultFile bad.name then load_results_from_csv bad.content
          else none) = none := by
      rw [hbad]; simp
    simp [load_all_results, List.filterMap_append, List.filterMap_cons, hskip]

/-- Witness for C8: a parse failure in the middle of a listing is skipped
and the surrounding sources are combined as if it were absent. -/
theorem loader_ok_witness :
    load_all_results [srcSingle, ⟨"trolley_results_bad.csv", none⟩] =
      load_all_results [srcSingle] :=
  loader_ok.2.2 [srcSingle] [] ⟨"trolley_results_bad.csv", none⟩ rfl

/-- Every participant key names a non-empty group. -/
theorem participantGroup_ne_nil {df : DataFrame} {p : String}
    (hp : p ∈ participantKeys df) : participantGroup df p ≠ [] := by
  have hp' : p ∈ (df.rows.map fun r => r.participantId).dedup :=
    ((List.perm_insertionSort _ _).mem_iff).1 hp
  obtain ⟨r, hr, hrp⟩ := List.mem_map.1 (List.mem_dedup.1 hp')
  exact List.ne_nil_of_mem (List.mem_filter.2 ⟨hr, by simp [hrp]⟩)

/-- C4: for every participant group the dominant label is `Utilitarian`
exactly when the utilitarian percentage is strictly above 60,
`Deontological` exactly when the deontological percentage is strictly above
60, and `Mixed` otherwise (so exactly 60% resolves to `Mixed`); concretely,
7/10, 6/10 and 3/10 utilitarian splits classify as `Utilitarian`, `Mixed`
and `Deontological`. -/
theorem dominant_framework_rule :
    (∀ (df : DataFrame) (s : ParticipantStat),
        s ∈ participant_framework_analysis df →
        (s.dominantFramework = "Utilitarian" ↔ 60 < s.utilPct) ∧
          (s.dominantFramework = "Deontological" ↔ 60 < s.deontPct) ∧
          (s.dominantFramework = "Mixed" ↔
            s.utilPct ≤ 60 ∧ s.deontPct ≤ 60)) ∧
      ((participant_framework_analysis dfP1).map fun s => s.dominantFramework)
          = ["Utilitarian"] ∧
      ((participant_framework_analysis dfP2).map fun s => s.dominantFramework)
          = ["Mixed"] ∧
      ((participant_framework_analysis dfP3).map fun s => s.dominantFramework)
          = ["Deontological"] := by
  refine ⟨?_, ?_, ?_, ?_⟩
  · intro df s hs
    obtain ⟨p, hp, rfl⟩ := List.mem_map.1 hs
    set g := participantGroup df p with hg
    have hne : g ≠ [] := participantGroup_ne_nil hp
    have ht : (0 : ℚ) < ((g.length : ℕ) : ℚ) := by
      have : 0 < g.length := List.length_pos.2 hne
      exact_mod_cast this
    have hle := countP_framework_le g
    have hex :
        ¬(60 < (mkParticipantStat p g).utilPct ∧
          60 < (mkParticipantStat p g).deontPct) := by
      rintro ⟨h1, h2⟩
      simp only [mkParticipantStat] at h1 h2
      rw [div_mul_eq_mul_div, lt_div_iff ht] at h1 h2
      have hcast :
          ((g.countP fun r => r.framework = "utilitarian" : ℕ) : ℚ) +
            ((g.countP fun r => r.framework = "deontological" : ℕ) : ℚ) ≤
            ((g.length : ℕ) : ℚ) := by exact_mod_cast hle
      nlinarith
    simp only [mkParticipantStat] at hex ⊢
    by_cases h1 :
        60 < ((g.countP fun r => r.framework = "utilitarian" : ℕ) : ℚ) /
          ((g.length : ℕ) : ℚ) * 100
    · refine ⟨⟨fun _ => h1, fun _ => by simp [get_dominant_framework, h1]⟩,
        ?_, ?_⟩
      · constructor
        · intro hlab
          exact absurd hlab (by simp [get_dominant_framework, h1])
        · intro h2
          exact absurd ⟨h1, h2⟩ hex
      · constructor
        · intro hlab
          exact absurd hlab (by simp [get_dominant_framework, h1])
        · rintro ⟨hu, _⟩
          exact absurd h1 (not_lt.2 hu)
    · by_cases h2 :
          60 < ((g.countP fun r => r.framework = "deontological" : ℕ) : ℚ) /
            ((g.length : ℕ) : ℚ) * 100
      · refine ⟨?_, ⟨fun _ => h2, fun _ => ?_⟩, ?_⟩
        · constructor
          · intro hlab
            exact absurd hlab (by simp [get_dominant_framework, h1, h2])
          · intro h1'
            exact absurd h1' h1
        · simp [get_dominant_framework, h1, h2]
        · constructor
          · intro hlab
            exact absurd hlab (by simp [get_dominant_framework, h1, h2])
          · rintro ⟨_, hd⟩
            exact absurd h2 (not_lt.2 hd)
      · refine ⟨?_, ?_, ?_⟩
        · constructor
          · intro hlab
            exact absurd hlab (by simp [get_dominant_framework, h1, h2])
          · intro h1'
            exact absurd h1' h1
        · constructor
          · intro hlab
            exact absurd hlab (by simp [get_dominant_framework, h1, h2])
          · intro h2'
            exact absurd h2' h2
        · exact ⟨fun _ => ⟨not_lt.1 h1, not_lt.1 h2⟩,
            fun _ => by simp [get_dominant_framework, h1, h2]⟩
  · rw [participant_framework_analysis,
      show participantKeys dfP1 = ["p1"] from by decide]
    norm_num [mkParticipantStat, participantGroup, dfP1, repRecs, mkRec,
      List.replicate, List.filter_cons, List.countP_cons,
      get_dominant_framework, fw_ne_ud, fw_ne_du]
  · rw [participant_framework_analysis,
      show participantKeys dfP2 = ["p2"] from by decide]
    norm_num [mkParticipantStat, participantGroup, dfP2, repRecs, mkRec,
      List.replicate, List.filter_cons, List.countP_cons,
      get_dominant_framework, fw_ne_ud, fw_ne_du]
  · rw [participant_framework_analysis,
      show participantKeys dfP3 = ["p3"] from by decide]
    norm_num [mkParticipantStat, participantGroup, dfP3, repRecs, mkRec,
      List.replicate, List.filter_cons, List.countP_cons,
      get_dominant_framework, fw_ne_ud, fw_ne_du]

/-- Witness for C4: participant `p1` of the concrete split table (7/10
utilitarian) is classified `Utilitarian` by the rule. -/
theorem dominant_framework_rule_witness :
    (mkParticipantStat "p1" (participantGroup dfP1 "p1")).dominantFramework
      = "Utilitarian" := by
  have hmem : mkParticipantStat "p1" (participantGroup dfP1 "p1") ∈
      participant_framework_analysis dfP1 :=
    List.mem_map_of_mem _ (by decide : "p1" ∈ participantKeys dfP1)
  refine ((dominant_framework_rule.1 dfP1 _ hmem).1).2 ?_
  norm_num [mkParticipantStat, participantGroup, dfP1, repRecs, mkRec,
    List.replicate, List.filter_cons, List.countP_cons, fw_ne_ud, fw_ne_du]

/-- Mean is invariant under permutation. -/
theorem qmean_perm {l l' : List ℚ} (h : l.Perm l') : qmean l = qmean l' := by
  unfold qmean
  rw [h.sum_eq, h.length_eq]

/-- Population variance is invariant under permutation. -/
theorem popVar_perm {l l' : List ℚ} (h : l.Perm l') : popVar l = popVar l' := by
  unfold popVar
  rw [qmean_perm h, h.length_eq,
    (h.map fun x => (x - qmean l') ^ 2).sum_eq]

/-- A list of zeros and ones is a permutation of ones followed by zeros. -/
theorem binary_perm (l : List ℚ) (h : ∀ x ∈ l, x = 1 ∨ x = 0) :
    l.Perm (List.replicate (l.countP fun x => x = 1) (1 : ℚ) ++
      List.replicate (l.countP fun x => x = 0) (0 : ℚ)) := by
  induction l with
  | nil => simp
  | cons x t ih =>
    have h10 : ((1 : ℚ) = 0) = False := by norm_num
    have h01 : ((0 : ℚ) = 1) = False := by norm_num
    have ih' := ih fun y hy => h y (List.mem_cons_of_mem _ hy)
    rcases h x (List.mem_cons_self x t) with hx | hx <;> subst hx
    · have hc1 : ((1 : ℚ) :: t).countP (fun x => x = 1) =
          (t.countP fun x => x = 1) + 1 := by
        simp [List.countP_cons]
      have hc0 : ((1 : ℚ) :: t).countP (fun x => x = 0) =
          t.countP fun x => x = 0 := by
        simp [List.countP_cons, h10]
      rw [hc1, hc0, List.replicate_succ]
      simpa using ih'.cons (1 : ℚ)
    · have hc1 : ((0 : ℚ) :: t).countP (fun x => x = 1) =
          t.countP fun x => x = 1 := by
        simp [List.countP_cons, h01]
      have hc0 : ((0 : ℚ) :: t).countP (fun x => x = 0) =
          (t.countP fun x => x = 0) + 1 := by
        simp [List.countP_cons]
      rw [hc1, hc0, List.replicate_succ]
      refine (ih'.cons (0 : ℚ)).trans ?_
      exact List.perm_middle.symm

/-- Closed form of the disagreement variance:
`np.std([1]*u + [0]*d) ** 2 = u*d/(u+d)^2`. -/
theorem popVar_replicate_binary (u d : ℕ) (h : u + d ≠ 0) :
    popVar (List.replicate u (1 : ℚ) ++ List.replicate d (0 : ℚ)) =
      ((u : ℚ) * d) / ((u : ℚ) + d) ^ 2 := by
  have hQ : ((u : ℚ) + d) ≠ 0 := by
    have : ((u + d : ℕ) : ℚ) ≠ 0 := Nat.cast_ne_zero.2 h
    push_cast at this
    exact this
  unfold popVar qmean
  simp only [List.sum_append, List.sum_replicate, List.length_append,
    List.length_replicate, List.map_append, List.map_replicate, smul_eq_mul,
    mul_one, mul_zero, add_zero, Nat.cast_add]
  field_simp
  ring

/-- Population variance is nonnegative. -/
theorem popVar_nonneg (l : List ℚ) : 0 ≤ popVar l := by
  unfold popVar
  apply div_nonneg
  · apply List.sum_nonneg
    intro x hx
    obtain ⟨y, _, rfl⟩ := List.mem_map.1 hx
    positivity
  · positivity

/-- Every key produced by the dilemma grouping comes from a row. -/
theorem dilemmaKeys_mem_rows {df : DataFrame} {k : Int × String}
    (hk : k ∈ dilemmaKeys df) : ∃ r ∈ df.rows, dilemmaKey r = k := by
  have hk' : k ∈ (df.rows.map dilemmaKey).dedup :=
    ((List.perm_insertionSort _ _).mem_iff).1 hk
  exact List.mem_map.1 (List.mem_dedup.1 hk')

/-- Every dilemma key names a non-empty group. -/
theorem dilemmaGroup_ne_nil {df : DataFrame} {k : Int × String}
    (hk : k ∈ dilemmaKeys df) : dilemmaGroup df k ≠ [] := by
  obtain ⟨r, hr, hrk⟩ := dilemmaKeys_mem_rows hk
  exact List.ne_nil_of_mem (List.mem_filter.2 ⟨hr, by simp [hrk]⟩)

/-- Rows of a dilemma group are rows of the table. -/
theorem dilemmaGroup_subset {df : DataFrame} {k : Int × String} {r : Record}
    (hr : r ∈ dilemmaGroup df k) : r ∈ df.rows :=
  (List.mem_filter.1 hr).1

/-- Every row of the intended per-dilemma statistics frame is the statistic
of its own `(Dilemma ID, Dilemma Title)` group, and that key is a group
key. -/
theorem intendedDilemmaStats_mem {df : DataFrame} {s : DilemmaStat}
    (hs : s ∈ intendedDilemmaStats df) :
    s = mkDilemmaStat (s.dilemmaId, s.dilemmaTitle)
        (dilemmaGroup df (s.dilemmaId, s.dilemmaTitle)) ∧
      (s.dilemmaId, s.dilemmaTitle) ∈ dilemmaKeys df := by
  obtain ⟨k, hk, rfl⟩ := List.mem_map.1 hs
  have hid : (mkDilemmaStat k (dilemmaGroup df k)).dilemmaId = k.1 := rfl
  have htitle :
      (mkDilemmaStat k (dilemmaGroup df k)).dilemmaTitle = k.2 := rfl
  rw [hid, htitle]
  exact ⟨rfl, hk⟩

/-- On a well-formed group, the two counts of `mkDilemmaStat` partition the
group and the disagreement variance equals both the variance of the
`{1 if utilitarian else 0}` recoding of the group and the closed form
`u*d/n²`. -/
theorem mkDilemmaStat_var (k : Int × String) (g : List Record)
    (hknown : ∀ r ∈ g,
      r.framework = "utilitarian" ∨ r.framework = "deontological")
    (hne : g ≠ []) :
    (mkDilemmaStat k g).utilitarianCount +
        (mkDilemmaStat k g).deontologicalCount = g.length ∧
      (mkDilemmaStat k g).choiceStdDevSq =
        popVar (g.map fun r => (frameworkNumericOf r : ℚ)) ∧
      (mkDilemmaStat k g).choiceStdDevSq =
        (((mkDilemmaStat k g).utilitarianCount : ℚ) *
            ((mkDilemmaStat k g).deontologicalCount : ℚ)) /
          ((g.length : ℚ)) ^ 2 := by
  have hpart := countP_framework_partition g hknown
  have hu : (mkDilemmaStat k g).utilitarianCount =
      g.countP fun r => r.framework = "utilitarian" := rfl
  have hd : (mkDilemmaStat k g).deontologicalCount =
      g.countP fun r => r.framework = "deontological" := rfl
  have hbin : ∀ x ∈ g.map fun r => (frameworkNumericOf r : ℚ),
      x = 1 ∨ x = 0 := by
    intro x hx
    obtain ⟨r, _, rfl⟩ := List.mem_map.1 hx
    by_cases hf : r.framework = "utilitarian" <;>
      simp [frameworkNumericOf, hf]
  have hc1 : ((g.map fun r => (frameworkNumericOf r : ℚ)).countP
      fun x => x = 1) = g.countP fun r => r.framework = "utilitarian" := by
    rw [List.countP_map]
    apply List.countP_congr
    intro r _
    by_cases hf : r.framework = "utilitarian" <;>
      simp [Function.comp, frameworkNumericOf, hf]
  have hc0 : ((g.map fun r => (frameworkNumericOf r : ℚ)).countP
      fun x => x = 0) = g.countP fun r => r.framework = "deontological" := by
    rw [List.countP_map]
    apply List.countP_congr
    intro r hr
    rcases hknown r hr with hf | hf <;>
      simp [Function.comp, frameworkNumericOf, hf]
  have hperm := binary_perm _ hbin
  rw [hc1, hc0] at hperm
  have hvar : (mkDilemmaStat k g).choiceStdDevSq =
      popVar (g.map fun r => (frameworkNumericOf r : ℚ)) := by
    have : (mkDilemmaStat k g).choiceStdDevSq =
        popVar (List.replicate (g.countP fun r =>
            r.framework = "utilitarian") (1 : ℚ) ++
          List.replicate (g.countP fun r =>
            r.framework = "deontological") (0 : ℚ)) := rfl
    rw [this, popVar_perm hperm]
  refine ⟨by rw [hu, hd]; exact hpart, hvar, ?_⟩
  have hlen0 : (g.countP fun r => r.framework = "utilitarian") +
      (g.countP fun r => r.framework = "deontological") ≠ 0 := by
    rw [hpart]
    simpa using hne
  have hclosed := popVar_replicate_binary
    (g.countP fun r => r.framework = "utilitarian")
    (g.countP fun r => r.framework = "deontological") hlen0
  have : (mkDilemmaStat k g).choiceStdDevSq =
      popVar (List.replicate (g.countP fun r =>
          r.framework = "utilitarian") (1 : ℚ) ++
        List.replicate (g.countP fun r =>
          r.framework = "deontological") (0 : ℚ)) := rfl
  rw [this, hclosed, hu, hd]
  have hcast : ((g.countP fun r => r.framework = "utilitarian" : ℕ) : ℚ) +
      ((g.countP fun r => r.framework = "deontological" : ℕ) : ℚ) =
      ((g.length : ℕ) : ℚ) := by exact_mod_cast congrArg (Nat.cast : ℕ → ℚ) hpart
  rw [hcast]

/-- C5: the program never computes a disagreement score — on every
non-empty table `analyze_dilemma_responses` raises `TypeError` at
`sum(framework_counts.values())` (line 131) before `np.std` on line 140 is
reached (first conjunct).  The score the unreached loop body is written to
compute satisfies the claim: for every dilemma group (of well-formed
records) it is the population standard deviation of the
`{1 if utilitarian else 0}` sequence over the group's respondents, exactly
0 when all respondents chose identically and for groups of size 1, and
maximal for a 50/50 split relative to any other split of the same group
size.  (The score is carried as its square `choiceStdDevSq`; the float
score is its real square root, written with `Real.sqrt`.) -/
theorem disagreement_score_cases :
    (∀ df : DataFrame, df.rows ≠ [] →
      analyze_dilemma_responses df =
        .error (.typeError "'numpy.ndarray' object is not callable")) ∧
    (∀ (df : DataFrame) (s : DilemmaStat), s ∈ intendedDilemmaStats df →
      (∀ r ∈ df.rows,
        r.framework = "utilitarian" ∨ r.framework = "deontological") →
      Real.sqrt (s.choiceStdDevSq : ℝ) =
          Real.sqrt ((popVar ((dilemmaGroup df
            (s.dilemmaId, s.dilemmaTitle)).map
              fun r => (frameworkNumericOf r : ℚ)) : ℚ) : ℝ) ∧
        ((∀ r₁ ∈ dilemmaGroup df (s.dilemmaId, s.dilemmaTitle),
            ∀ r₂ ∈ dilemmaGroup df (s.dilemmaId, s.dilemmaTitle),
            r₁.framework = r₂.framework) →
          Real.sqrt (s.choiceStdDevSq : ℝ) = 0) ∧
        (s.groupTotal = 1 → Real.sqrt (s.choiceStdDevSq : ℝ) = 0)) ∧
    ∀ (df₁ df₂ : DataFrame) (s₁ s₂ : DilemmaStat),
      s₁ ∈ intendedDilemmaStats df₁ →
      s₂ ∈ intendedDilemmaStats df₂ →
      (∀ r ∈ df₁.rows,
        r.framework = "utilitarian" ∨ r.framework = "deontological") →
      (∀ r ∈ df₂.rows,
        r.framework = "utilitarian" ∨ r.framework = "deontological") →
      s₁.utilitarianCount = s₁.deontologicalCount →
      s₁.groupTotal = s₂.groupTotal →
      Real.sqrt (s₂.choiceStdDevSq : ℝ) ≤ Real.sqrt (s₁.choiceStdDevSq : ℝ) := by
  refine ⟨?_, ?_, ?_⟩
  · intro df hne
    unfold analyze_dilemma_responses
    rw [if_neg (by simpa using hne)]
  · intro df s hs hknown
    obtain ⟨k, hk, rfl⟩ := List.mem_map.1 hs
    have hkk : ((mkDilemmaStat k (dilemmaGroup df k)).dilemmaId,
        (mkDilemmaStat k (dilemmaGroup df k)).dilemmaTitle) = k := rfl
    rw [hkk]
    have hknown' : ∀ r ∈ dilemmaGroup df k,
        r.framework = "utilitarian" ∨ r.framework = "deontological" :=
      fun r hr => hknown r (dilemmaGroup_subset hr)
    have hne := dilemmaGroup_ne_nil hk
    obtain ⟨hpart, hvar, hclosed⟩ :=
      mkDilemmaStat_var k (dilemmaGroup df k) hknown' hne
    refine ⟨congrArg (fun q : ℚ => Real.sqrt (q : ℝ)) hvar, ?_, ?_⟩
    · intro huni
      obtain ⟨r0, hr0⟩ := List.exists_mem_of_ne_nil _ hne
      have hval : (mkDilemmaStat k (dilemmaGroup df k)).choiceStdDevSq = 0 := by
        rw [hclosed]
        rcases hknown' r0 hr0 with hf | hf
        · have hd0 : (mkDilemmaStat k
              (dilemmaGroup df k)).deontologicalCount = 0 :=
            List.countP_eq_zero.2 fun r hr => by
              have := huni r hr r0 hr0
              simp [this, hf]
          rw [hd0]
          simp
        · have hu0 : (mkDilemmaStat k
              (dilemmaGroup df k)).utilitarianCount = 0 :=
            List.countP_eq_zero.2 fun r hr => by
              have := huni r hr r0 hr0
              simp [this, hf]
          rw [hu0]
          simp
      rw [hval]
      simp
    · intro h1
      have hlen : (dilemmaGroup df k).length = 1 := h1
      have hval : (mkDilemmaStat k (dilemmaGroup df k)).choiceStdDevSq = 0 := by
        rw [hclosed]
        rw [hlen] at hpart
        rcases Nat.eq_zero_or_pos
            (mkDilemmaStat k (dilemmaGroup df k)).utilitarianCount with h0 | h0
        · rw [h0]
          simp
        · have hd0 : (mkDilemmaStat k
              (dilemmaGroup df k)).deontologicalCount = 0 := by omega
          rw [hd0]
          simp
      rw [hval]
      simp
  · intro df₁ df₂ s₁ s₂ h1 h2 hk1 hk2 heq hn
    obtain ⟨k₁, hk₁m, rfl⟩ := List.mem_map.1 h1
    obtain ⟨k₂, hk₂m, rfl⟩ := List.mem_map.1 h2
    have hkn₁ : ∀ r ∈ dilemmaGroup df₁ k₁,
        r.framework = "utilitarian" ∨ r.framework = "deontological" :=
      fun r hr => hk1 r (dilemmaGroup_subset hr)
    have hkn₂ : ∀ r ∈ dilemmaGroup df₂ k₂,
        r.framework = "utilitarian" ∨ r.framework = "deontological" :=
      fun r hr => hk2 r (dilemmaGroup_subset hr)
    have hne₁ := dilemmaGroup_ne_nil hk₁m
    have hne₂ := dilemmaGroup_ne_nil hk₂m
    obtain ⟨hpart₁, _, hclosed₁⟩ :=
      mkDilemmaStat_var k₁ (dilemmaGroup df₁ k₁) hkn₁ hne₁
    obtain ⟨hpart₂, _, hclosed₂⟩ :=
      mkDilemmaStat_var k₂ (dilemmaGroup df₂ k₂) hkn₂ hne₂
    have hlen : (dilemmaGroup df₁ k₁).length = (dilemmaGroup df₂ k₂).length :=
      hn
    have hpos : 0 < (dilemmaGroup df₂ k₂).length := List.length_pos.2 hne₂
    set u₁ := (mkDilemmaStat k₁ (dilemmaGroup df₁ k₁)).utilitarianCount
    set d₁ := (mkDilemmaStat k₁ (dilemmaGroup df₁ k₁)).deontologicalCount
    set u₂ := (mkDilemmaStat k₂ (dilemmaGroup df₂ k₂)).utilitarianCount
    set d₂ := (mkDilemmaStat k₂ (dilemmaGroup df₂ k₂)).deontologicalCount
    have hmul : ((u₂ : ℚ) * d₂) ≤ (u₁ : ℚ) * d₁ := by
      have c₁ : ((u₁ : ℚ) + d₁) = ((dilemmaGroup df₁ k₁).length : ℚ) := by
        exact_mod_cast congrArg (Nat.cast : ℕ → ℚ) hpart₁
      have c₂ : ((u₂ : ℚ) + d₂) = ((dilemmaGroup df₂ k₂).length : ℚ) := by
        exact_mod_cast congrArg (Nat.cast : ℕ → ℚ) hpart₂
      have ceq : ((u₁ : ℚ)) = (d₁ : ℚ) := by exact_mod_cast heq
      have clen : (((dilemmaGroup df₁ k₁).length : ℕ) : ℚ) =
          (((dilemmaGroup df₂ k₂).length : ℕ) : ℚ) := by
        exact_mod_cast congrArg (Nat.cast : ℕ → ℚ) hlen
      nlinarith [sq_nonneg ((u₂ : ℚ) - (d₂ : ℚ))]
    have hq : (mkDilemmaStat k₂ (dilemmaGroup df₂ k₂)).choiceStdDevSq ≤
        (mkDilemmaStat k₁ (dilemmaGroup df₁ k₁)).choiceStdDevSq := by
      rw [hclosed₁, hclosed₂, hlen]
      have hp2 : (0 : ℚ) < (((dilemmaGroup df₂ k₂).length : ℕ) : ℚ) ^ 2 := by
        have : (0 : ℚ) < (((dilemmaGroup df₂ k₂).length : ℕ) : ℚ) := by
          exact_mod_cast hpos
        positivity
      exact div_le_div_of_nonneg_right hmul hp2.le |>.trans_eq rfl
    have hcast : ((mkDilemmaStat k₂
        (dilemmaGroup df₂ k₂)).choiceStdDevSq : ℝ) ≤
        ((mkDilemmaStat k₁ (dilemmaGroup df₁ k₁)).choiceStdDevSq : ℝ) := by
      exact_mod_cast hq
    exact Real.sqrt_le_sqrt hcast

/-- Witness for C5 at the spec's two-record example dilemma group (one
utilitarian and one deontological respondent): the intended score equals
the population std of the recoded group sequence. -/
theorem disagreement_score_cases_witness :
    Real.sqrt (((mkDilemmaStat ((1 : Int), "T1")
        (dilemmaGroup dfPair ((1 : Int), "T1"))).choiceStdDevSq : ℝ)) =
      Real.sqrt ((popVar ((dilemmaGroup dfPair ((1 : Int), "T1")).map
        fun r => (frameworkNumericOf r : ℚ)) : ℚ) : ℝ) := by
  have hmem : mkDilemmaStat ((1 : Int), "T1")
      (dilemmaGroup dfPair ((1 : Int), "T1")) ∈
      intendedDilemmaStats dfPair :=
    List.mem_map_of_mem _
      (by decide : ((1 : Int), "T1") ∈ dilemmaKeys dfPair)
  exact (disagreement_score_cases.2.1 dfPair _ hmem (by decide)).1

/-- The group keys are sorted ascending. -/
theorem dilemmaKeys_sorted (df : DataFrame) :
    (dilemmaKeys df).Sorted dilemmaKeyLe :=
  List.sorted_insertionSort dilemmaKeyLe _

/-- The group keys are distinct. -/
theorem dilemmaKeys_nodup (df : DataFrame) : (dilemmaKeys df).Nodup :=
  ((List.perm_insertionSort dilemmaKeyLe _).nodup_iff).2
    (List.nodup_dedup _)

/-- On a title-consistent table the group keys have strictly increasing ids. -/
theorem dilemmaKeys_fst_strict (df : DataFrame) (h : titleConsistent df) :
    (dilemmaKeys df).Pairwise fun a b => a.1 < b.1 := by
  have hs : (dilemmaKeys df).Pairwise dilemmaKeyLe := dilemmaKeys_sorted df
  have hn : (dilemmaKeys df).Pairwise (· ≠ ·) := dilemmaKeys_nodup df
  refine (hs.and hn).imp_of_mem ?_
  rintro a b ha hb ⟨hle, hne⟩
  rcases hle with h1 | ⟨he, _⟩
  · exact h1
  · exfalso
    obtain ⟨r₁, hr₁, hk₁⟩ := dilemmaKeys_mem_rows ha
    obtain ⟨r₂, hr₂, hk₂⟩ := dilemmaKeys_mem_rows hb
    have hid : r₁.dilemmaId = r₂.dilemmaId := by
      have e₁ : r₁.dilemmaId = a.1 := congrArg Prod.fst hk₁
      have e₂ : r₂.dilemmaId = b.1 := congrArg Prod.fst hk₂
      rw [e₁, e₂, he]
    have htitle := h r₁ hr₁ r₂ hr₂ hid
    have e₁ : r₁.dilemmaTitle = a.2 := congrArg Prod.snd hk₁
    have e₂ : r₂.dilemmaTitle = b.2 := congrArg Prod.snd hk₂
    apply hne
    have : a.2 = b.2 := by rw [← e₁, ← e₂, htitle]
    exact Prod.ext he this

/-- On a title-consistent table the dilemma statistics have strictly
increasing ids. -/
theorem dilemmaStats_id_strict (df : DataFrame) (h : titleConsistent df) :
    (intendedDilemmaStats df).Pairwise
      fun a b => a.dilemmaId < b.dilemmaId := by
  unfold intendedDilemmaStats
  rw [List.pairwise_map]
  exact (dilemmaKeys_fst_strict df h).imp fun hab => hab

/-- Inserting an element whose id is below every id of a tie-ascending list
preserves the tie-ascending property (stability of the descending sort). -/
theorem orderedInsert_tie (f : DilemmaStat → ℚ) (x : DilemmaStat)
    (l : List DilemmaStat) (hx : ∀ y ∈ l, x.dilemmaId < y.dilemmaId)
    (hl : l.Pairwise fun a b => f a = f b → a.dilemmaId < b.dilemmaId) :
    (l.orderedInsert (descBy f) x).Pairwise
      fun a b => f a = f b → a.dilemmaId < b.dilemmaId := by
  induction l with
  | nil => simp
  | cons y ys ih =>
    by_cases hr : descBy f x y
    · rw [List.orderedInsert, if_pos hr]
      refine List.pairwise_cons.2 ⟨?_, hl⟩
      intro z hz _
      exact hx z hz
    · rw [List.orderedInsert, if_neg hr]
      refine List.pairwise_cons.2 ⟨?_, ?_⟩
      · intro z hz
        rcases (List.mem_orderedInsert (descBy f)).1 hz with hz | hz
        · subst hz
          intro heq
          exact absurd (le_of_eq heq) hr
        · exact (List.pairwise_cons.1 hl).1 z hz
      · exact ih (fun y hy => hx y (List.mem_cons_of_mem _ hy))
          (List.pairwise_cons.1 hl).2

/-- The descending insertion sort of an id-ascending list keeps equal-score
elements in ascending-id order. -/
theorem insertionSort_tie (f : DilemmaStat → ℚ) (l : List DilemmaStat)
    (hl : l.Pairwise fun a b => a.dilemmaId < b.dilemmaId) :
    (l.insertionSort (descBy f)).Pairwise
      fun a b => f a = f b → a.dilemmaId < b.dilemmaId := by
  induction l with
  | nil => simp
  | cons x t ih =>
    rw [List.insertionSort]
    apply orderedInsert_tie
    · intro y hy
      exact (List.pairwise_cons.1 hl).1 y
        ((List.perm_insertionSort (descBy f) t).subset hy)
    · exact ih (List.pairwise_cons.1 hl).2

/-- Full characterization of `sort_values(col, ascending=False)` on an
id-ascending input: the output is ordered by the column descending with ties
in ascending id. -/
theorem sort_desc_characterization (f : DilemmaStat → ℚ)
    (l : List DilemmaStat)
    (hl : l.Pairwise fun a b => a.dilemmaId < b.dilemmaId) :
    (l.insertionSort (descBy f)).Pairwise
      fun a b => f b < f a ∨ (f a = f b ∧ a.dilemmaId < b.dilemmaId) := by
  have h1 : (l.insertionSort (descBy f)).Pairwise (descBy f) :=
    List.sorted_insertionSort (descBy f) l
  have h2 := insertionSort_tie f l hl
  refine (h1.and h2).imp ?_
  rintro a b ⟨hab, htie⟩
  rcases lt_or_eq_of_le hab with hlt | heqq
  · exact Or.inl hlt
  · exact Or.inr ⟨heqq.symm, htie heqq.symm⟩

/-- Every ranked statistic arises from the aggregation. -/
theorem mem_of_mem_sort {df : DataFrame} {s : DilemmaStat}
    {f : DilemmaStat → ℚ}
    (hs : s ∈ (intendedDilemmaStats df).insertionSort (descBy f)) :
    0 ≤ s.choiceStdDevSq := by
  have hs' : s ∈ intendedDilemmaStats df :=
    (List.perm_insertionSort (descBy f) _).subset hs
  obtain ⟨k, _, rfl⟩ := List.mem_map.1 hs'
  exact popVar_nonneg _

/-- C3: the program never produces the rankings — on every non-empty table
`generate_report` raises the `analyze_dilemma_responses` `TypeError`
(line 294) before the ranking lines 299-302 (first conjunct).  The rankings
the Report Assembler is written to produce satisfy the claim: the
statistics frame sorted by disagreement score descending and, separately,
by mean reaction time descending, top 3 of each, and in both sorted orders
two dilemmas with equal score appear in ascending `dilemma_id` order — of
two dilemmas with equal disagreement score the one with the lower id ranks
first.  (The disagreement score float is the real square root of the
carried `choiceStdDevSq`; hypothesis: each dilemma id carries one title, as
in the fixed dilemma set.) -/
theorem report_ranking_cases (df : DataFrame) (h : titleConsistent df) :
    (df.rows ≠ [] →
      analyze_dilemma_responses df =
          .error (.typeError "'numpy.ndarray' object is not callable") ∧
        ∀ now : String, generate_report now df =
          .error (.typeError "'numpy.ndarray' object is not callable")) ∧
      (sortByDisagreement (intendedDilemmaStats df)).Pairwise
        (fun a b =>
          Real.sqrt (b.choiceStdDevSq : ℝ) < Real.sqrt (a.choiceStdDevSq : ℝ)
            ∨ (Real.sqrt (a.choiceStdDevSq : ℝ) =
                Real.sqrt (b.choiceStdDevSq : ℝ) ∧
              a.dilemmaId < b.dilemmaId)) ∧
      high_disagreement_dilemmas (intendedDilemmaStats df) =
        ((sortByDisagreement (intendedDilemmaStats df)).take 3).map
          (fun s => (s.dilemmaId, s.dilemmaTitle, s.choiceStdDevSq)) ∧
      (sortByMeanRT (intendedDilemmaStats df)).Pairwise
        (fun a b => b.rtMean < a.rtMean ∨
          (a.rtMean = b.rtMean ∧ a.dilemmaId < b.dilemmaId)) ∧
      long_reaction_time_dilemmas (intendedDilemmaStats df) =
        ((sortByMeanRT (intendedDilemmaStats df)).take 3).map
          (fun s => (s.dilemmaId, s.dilemmaTitle, s.rtMean)) := by
  have hstrict := dilemmaStats_id_strict df h
  refine ⟨?_, ?_, rfl, ?_, rfl⟩
  · intro hne
    have hana : analyze_dilemma_responses df =
        .error (.typeError "'numpy.ndarray' object is not callable") := by
      unfold analyze_dilemma_responses
      rw [if_neg (by simpa using hne)]
    refine ⟨hana, fun now => ?_⟩
    unfold generate_report
    rw [hana]
  · have hq := sort_desc_characterization (fun s => s.choiceStdDevSq)
      (intendedDilemmaStats df) hstrict
    refine hq.imp_of_mem ?_
    intro a b ha hb hR
    have hb0 : 0 ≤ b.choiceStdDevSq := mem_of_mem_sort hb
    rcases hR with hlt | ⟨heq, hid⟩
    · left
      have hb0' : (0 : ℝ) ≤ (b.choiceStdDevSq : ℝ) := by exact_mod_cast hb0
      have hlt' : (b.choiceStdDevSq : ℝ) < (a.choiceStdDevSq : ℝ) := by
        exact_mod_cast hlt
      exact Real.sqrt_lt_sqrt hb0' hlt'
    · right
      exact ⟨congrArg Real.sqrt (by exact_mod_cast heq), hid⟩
  · exact sort_desc_characterization (fun s => s.rtMean)
      (intendedDilemmaStats df) hstrict

/-- Witness for C3 at the spec's two-record example table: the run crashes
before any ranking, and the intended rankings obey the descending order
with ascending-id ties. -/
theorem report_ranking_cases_witness :
    (analyze_dilemma_responses dfPair =
        .error (.typeError "'numpy.ndarray' object is not callable") ∧
      ∀ now : String, generate_report now dfPair =
        .error (.typeError "'numpy.ndarray' object is not callable")) ∧
    (sortByDisagreement (intendedDilemmaStats dfPair)).Pairwise
        (fun a b =>
          Real.sqrt (b.choiceStdDevSq : ℝ) < Real.sqrt (a.choiceStdDevSq : ℝ)
            ∨ (Real.sqrt (a.choiceStdDevSq : ℝ) =
                Real.sqrt (b.choiceStdDevSq : ℝ) ∧
              a.dilemmaId < b.dilemmaId)) ∧
      high_disagreement_dilemmas (intendedDilemmaStats dfPair) =
        ((sortByDisagreement (intendedDilemmaStats dfPair)).take 3).map
          (fun s => (s.dilemmaId, s.dilemmaTitle, s.choiceStdDevSq)) ∧
      (sortByMeanRT (intendedDilemmaStats dfPair)).Pairwise
        (fun a b => b.rtMean < a.rtMean ∨
          (a.rtMean = b.rtMean ∧ a.dilemmaId < b.dilemmaId)) ∧
      long_reaction_time_dilemmas (intendedDilemmaStats dfPair) =
        ((sortByMeanRT (intendedDilemmaStats dfPair)).take 3).map
          (fun s => (s.dilemmaId, s.dilemmaTitle, s.rtMean)) :=
  let h := report_ranking_cases dfPair (by decide)
  ⟨h.1 (by decide), h.2⟩

/-- Counterexample to C1 as stated: running the Correlation Engine on the
spec's example table changes the table's columns — `find_correlations` adds
the `Framework Numeric` column to the shared table in place. -/
theorem pipeline_purity_cex :
    (find_correlations dfPair).1.columns ≠ dfPair.columns := by decide

/-- Evaluation of `run_analysis`: the clean no-data outcome on an empty
combined table, and the `analyze_dilemma_responses` `TypeError` (raised
inside `generate_visualizations`) on every non-empty one. -/
theorem run_analysis_eval (now : String) (listing : List SourceFile) :
    run_analysis now listing =
      if (load_all_results listing).rows.isEmpty then .noData
      else .crashed (.typeError "'numpy.ndarray' object is not callable") := by
  by_cases hemp : (load_all_results listing).rows.isEmpty
  · rw [if_pos hemp]
    unfold run_analysis
    rw [if_pos hemp]
  · rw [if_neg hemp]
    have hana : analyze_dilemma_responses (load_all_results listing) =
        .error (.typeError "'numpy.ndarray' object is not callable") := by
      unfold analyze_dilemma_responses
      rw [if_neg hemp]
    unfold run_analysis generate_visualizations
    rw [if_neg hemp, hana]

/-- C1 (amended): the Correlation Engine, when run, preserves the rows of
the table but adds the derived `Framework Numeric` column to it in place
(the Aggregator stages compute fresh values) — so the original purity claim
fails; and the round-trip clause never materializes: on every non-empty
combined table `run_analysis` raises the `analyze_dilemma_responses`
`TypeError` inside `generate_visualizations`, before `find_correlations`,
`generate_report` and the `df.to_csv` export, so no table is ever exported
for round-trip (on an empty table the run stops at the clean no-data
outcome). -/
theorem pipeline_stage_effects (now : String) (df : DataFrame)
    (listing : List SourceFile) :
    (find_correlations df).1.rows = df.rows ∧
      (find_correlations df).1.columns = df.columns ++
        (if df.hasFrameworkNumeric then [] else ["Framework Numeric"]) ∧
      (run_analysis now listing).exportedTable = none := by
  refine ⟨rfl, ?_, ?_⟩
  · cases hfl : df.hasFrameworkNumeric <;>
      simp [DataFrame.columns, find_correlations, hfl]
  · rw [run_analysis_eval]
    by_cases hemp : (load_all_results listing).rows.isEmpty
    · rw [if_pos hemp]
      rfl
    · rw [if_neg hemp]
      rfl

/-- C2 (evaluation at the failing inputs): the Correlation Engine itself
surfaces no defined, named error condition — on a table whose framework
series is constant (zero variance in the binary recoding)
`find_correlations` returns the silent float NaN pair; and the report is
not "still emitted with the correlation section marked unavailable": no
report is ever emitted for any input — `generate_report` raises the
`analyze_dilemma_responses` `TypeError` (line 294) before
`find_correlations` on every non-empty table, including the zero-variance
and the single-record one, and `run_analysis` on the single-record source
crashes with that `TypeError` already inside `generate_visualizations`,
not with a named undefined-statistic condition. -/
theorem correlation_error_cases :
    (find_correlations dfConstFw).2 = .nanPair ∧
      (∀ (now : String) (df : DataFrame),
        (generate_report now df).toOption = none) ∧
      generate_report "2025-01-01 00:00:00" dfConstFw =
        .error (.typeError "'numpy.ndarray' object is not callable") ∧
      generate_report "2025-01-01 00:00:00" dfSingle =
        .error (.typeError "'numpy.ndarray' object is not callable") ∧
      run_analysis "2025-01-01 00:00:00" [srcSingle] =
        .crashed (.typeError "'numpy.ndarray' object is not callable") := by
  have hx : dfConstFw.rows.map (fun r => (frameworkNumericOf r : ℚ)) =
      [1, 1] := by
    simp [dfConstFw, mkRec, frameworkNumericOf]
  have hvx : popVar [(1 : ℚ), 1] = 0 := by
    norm_num [popVar, qmean]
  have h1 : (find_correlations dfConstFw).2 = .nanPair := by
    show pointbiserialr (dfConstFw.rows.map fun r =>
      (frameworkNumericOf r : ℚ)) (dfConstFw.rows.map fun r =>
        r.reactionTime) = .nanPair
    rw [hx]
    unfold pointbiserialr
    rw [if_neg (by norm_num), if_pos (Or.inl hvx)]
  refine ⟨h1, ?_, rfl, rfl, ?_⟩
  · intro now df
    by_cases hemp : df.rows.isEmpty
    · have hrows : df.rows = [] := by simpa using hemp
      have hana : analyze_dilemma_responses df = .ok [] := by
        unfold analyze_dilemma_responses
        rw [if_pos hemp]
      have hpb : (find_correlations df).2 = .valueError := by
        show pointbiserialr (df.rows.map fun r =>
          (frameworkNumericOf r : ℚ)) (df.rows.map fun r =>
            r.reactionTime) = .valueError
        rw [hrows]
        rfl
      have heta : find_correlations df =
          ((find_correlations df).1, (find_correlations df).2) := rfl
      unfold generate_report
      rw [hana, heta, hpb]
      rfl
    · have hana : analyze_dilemma_responses df =
          .error (.typeError "'numpy.ndarray' object is not callable") := by
        unfold analyze_dilemma_responses
        rw [if_neg hemp]
      unfold generate_report
      rw [hana]
      rfl
  · rw [run_analysis_eval]
    rw [if_neg (by decide)]

/-- Counterexample to C9 as stated: listing the same two sources in the
other order yields a combined table with a different row ordering. -/
theorem determinism_cex :
    ([srcA, srcB] : List SourceFile).Perm [srcB, srcA] ∧
      load_all_results [srcA, srcB] ≠ load_all_results [srcB, srcA] :=
  ⟨List.Perm.swap srcB srcA [], by decide⟩

/-- C9 (amended): for a fixed listing order the pipeline is deterministic —
two runs, at any two clock readings, produce the identical outcome (the
clock never reaches an output: the clean no-data outcome on an empty
table, the same `analyze_dilemma_responses` `TypeError` crash on a
non-empty one), and no report is ever emitted on non-empty data; the
combined rows depend on the listing order only by permutation (the
Combiner concatenates in `os.listdir` order and does not sort by source
name, so permuting the listing permutes the rows). -/
theorem run_deterministic (now₁ now₂ : String)
    (listing l₂ : List SourceFile) :
    run_analysis now₁ listing = run_analysis now₂ listing ∧
      (∀ r e, run_analysis now₁ listing ≠ .done r e) ∧
      (listing.Perm l₂ →
        ((load_all_results listing).rows).Perm
          ((load_all_results l₂).rows)) := by
  refine ⟨?_, ?_, ?_⟩
  · rw [run_analysis_eval, run_analysis_eval]
  · intro r e
    rw [run_analysis_eval]
    by_cases hemp : (load_all_results listing).rows.isEmpty
    · rw [if_pos hemp]
      simp
    · rw [if_neg hemp]
      simp
  · intro hperm
    exact (hperm.filterMap _).flatten

/-- Witness for C9's amended statement: swapping the two sources permutes
the combined rows. -/
theorem run_deterministic_witness :
    ((load_all_results [srcA, srcB]).rows).Perm
      ((load_all_results [srcB, srcA]).rows) :=
  (run_deterministic "2025-01-01 00:00:00" "2025-01-02 00:00:00"
      [srcA, srcB] [srcB, srcA]).2.2 (List.Perm.swap srcB srcA [])
